import Mathlib

/-!
Verification development for the GI-bleed cohort extraction pipeline
(`cohort_extraction.ipynb`): a shallow embedding of the filter stage,
the abnormal-value reduction cell, the sentinel-normalization pass,
the column-curation drops, the one-hot encoding of the admission
diagnosis, and the stratified train/test split, together with theorems
settling the specification claims about those stages.

Conventions: a table cell is `Option ℚ`, with `none` playing the role
of pandas `NaN`; a table row is a total map from column names to cells
(values of columns absent from the schema are simply never consulted);
pandas comparison semantics are embedded explicitly (`NaN` compares
false against everything).
-/

/-- A table cell: `none` models pandas `NaN` (missing); `some q` a numeric value. -/
abbrev Cell := Option ℚ

/-- A table row, keyed by column name, mirroring one row of the pandas frame. -/
abbrev Row := String → Cell

/-- Pandas semantics of `abs(x - c) >= abs(y - d)` on two cells: any comparison
involving `NaN` evaluates to `False`. -/
def devGE (x y : Cell) (c d : ℚ) : Bool :=
  match x, y with
  | some a, some b => decide (|a - c| ≥ |b - d|)
  | _, _ => false

/-- Pandas semantics of `x < t` on a cell: `False` when `x` is `NaN`. -/
def cellLT (x : Cell) (t : ℚ) : Bool :=
  match x with
  | some a => decide (a < t)
  | none => false

/-- Pandas semantics of `x >= t` on a cell: `False` when `x` is `NaN`. -/
def cellGE (x : Cell) (t : ℚ) : Bool :=
  match x with
  | some a => decide (t ≤ a)
  | none => false

/-- Pandas semantics of `x <= t` on a cell: `False` when `x` is `NaN`. -/
def cellLE (x : Cell) (t : ℚ) : Bool :=
  match x with
  | some a => decide (a ≤ t)
  | none => false

/-- Per-row sodium reduction of the abnormal-value cell:
`sodium_check = abs(sodium_min - 135.) >= abs(sodium_max - 145.)`, the reduced
`sodium` is `sodium_min` where the check holds and `sodium_max` elsewhere. -/
def sodiumReduce (r : Row) : Cell :=
  if devGE (r "sodium_min") (r "sodium_max") 135 145 then r "sodium_min"
  else r "sodium_max"

/-- Per-row potassium reduction:
`potassium_check = abs(potassium_min - 3.5) >= abs(potassium_max - 5.0)`,
reduced value is the minimum where the check holds, else the maximum. -/
def potassiumReduce (r : Row) : Cell :=
  if devGE (r "potassium_min") (r "potassium_max") 3.5 5 then r "potassium_min"
  else r "potassium_max"

/-- Per-row white-blood-cell reduction: `wbc_check = wbc_min < 2`, reduced value
is `wbc_min` where the check holds and `wbc_max` elsewhere. -/
def wbcReduce (r : Row) : Cell :=
  if cellLT (r "wbc_min") 2 then r "wbc_min" else r "wbc_max"

/-- Per-row neutrophil-percentage reduction: `pmn_check = pmn_min < 45`. -/
def pmnReduce (r : Row) : Cell :=
  if cellLT (r "pmn_min") 45 then r "pmn_min" else r "pmn_max"

/-- Per-row lymphocyte-percentage reduction: `lym_check = lymphs_min < 20`. -/
def lymReduce (r : Row) : Cell :=
  if cellLT (r "lymphs_min") 20 then r "lymphs_min" else r "lymphs_max"

/-- Row-level effect of the whole abnormal-value reduction cell: the five
assigned columns `sodium`, `potassium`, `wbc`, `pmn`, `lym` get their reduced
values; every other column's value is untouched (the cell only drops columns
otherwise, which does not change any surviving value). -/
def reduceRow (r : Row) : Row := fun c =>
  if c = "sodium" then sodiumReduce r
  else if c = "potassium" then potassiumReduce r
  else if c = "wbc" then wbcReduce r
  else if c = "pmn" then pmnReduce r
  else if c = "lym" then lymReduce r
  else r c

/-- One cell of the whole-table pass `cohort.replace(-1, np.nan)`. -/
def replaceSentinel (x : Cell) : Cell :=
  if x = some (-1) then none else x

/-- The whole-table sentinel pass applied to a row. -/
def replaceRow (r : Row) : Row := fun c => replaceSentinel (r c)

/-- Order in which the notebook runs the two passes: the abnormal-value
reduction cell first, the sentinel pass afterwards. -/
def codeOrder (r : Row) : Row := replaceRow (reduceRow r)

/-- The alternative ordering demanded by the specification: sentinel pass
first, reduction afterwards. -/
def specOrder (r : Row) : Row := reduceRow (replaceRow r)

/-- The ten columns read by the reduction checks. -/
def reductionInputs : List String :=
  ["sodium_min", "sodium_max", "potassium_min", "potassium_max",
   "wbc_min", "wbc_max", "pmn_min", "pmn_max", "lymphs_min", "lymphs_max"]

/-- A concrete row whose sodium minimum is the `-1` sentinel. -/
def rowSentinelSodium : Row := fun c =>
  if c = "sodium_min" then some (-1)
  else if c = "sodium_max" then some 146
  else none

theorem replaceSentinel_eq_of_ne {x : Cell} (h : x ≠ some (-1)) :
    replaceSentinel x = x := if_neg h

theorem replaceRow_eq_of_ne (r : Row) (c : String) (h : r c ≠ some (-1)) :
    replaceRow r c = r c := replaceSentinel_eq_of_ne h

theorem devGE_some (a b c d : ℚ) :
    devGE (some a) (some b) c d = decide (|a - c| ≥ |b - d|) := rfl

theorem rowSentinelSodium_check :
    devGE (rowSentinelSodium "sodium_min") (rowSentinelSodium "sodium_max") 135 145 = true := by
  have h1 : rowSentinelSodium "sodium_min" = some (-1) := by decide
  have h2 : rowSentinelSodium "sodium_max" = some 146 := by decide
  rw [h1, h2, devGE_some]
  simp only [decide_eq_true_eq, ge_iff_le]
  rw [abs_of_nonneg (show (0:ℚ) ≤ 146 - 145 by norm_num),
      abs_of_nonpos (show (-1:ℚ) - 135 ≤ 0 by norm_num)]
  norm_num

theorem reduceRow_sodium (r : Row) : reduceRow r "sodium" = sodiumReduce r := rfl

theorem reduceRow_potassium (r : Row) : reduceRow r "potassium" = potassiumReduce r := rfl

theorem reduceRow_wbc (r : Row) : reduceRow r "wbc" = wbcReduce r := rfl

theorem reduceRow_pmn (r : Row) : reduceRow r "pmn" = pmnReduce r := rfl

theorem reduceRow_lym (r : Row) : reduceRow r "lym" = lymReduce r := rfl

theorem reduceRow_other (r : Row) (c : String)
    (h1 : c ≠ "sodium") (h2 : c ≠ "potassium") (h3 : c ≠ "wbc")
    (h4 : c ≠ "pmn") (h5 : c ≠ "lym") : reduceRow r c = r c := by
  unfold reduceRow
  rw [if_neg h1, if_neg h2, if_neg h3, if_neg h4, if_neg h5]

/-- C1, counterexample: on a row whose `sodium_min` holds the `-1` sentinel, the
notebook's ordering (reduce, then `replace(-1, NaN)`) and the spec's ordering
(replace first, then reduce) produce different reduced sodium values, so the
normalization does not happen before the deviation comparison and the reducer
does treat `-1` as a numeric extreme. -/
theorem sentinel_order_counterexample :
    codeOrder rowSentinelSodium "sodium" ≠ specOrder rowSentinelSodium "sodium" := by
  have e1 : replaceRow rowSentinelSodium "sodium_min" = none := by decide
  have e2 : replaceRow rowSentinelSodium "sodium_max" = some 146 := by decide
  have hcode : codeOrder rowSentinelSodium "sodium" = none := by
    show replaceSentinel (reduceRow rowSentinelSodium "sodium") = none
    rw [reduceRow_sodium]
    unfold sodiumReduce
    rw [rowSentinelSodium_check]
    have h1 : rowSentinelSodium "sodium_min" = some (-1) := by decide
    simp [h1, replaceSentinel]
  have hspec : specOrder rowSentinelSodium "sodium" = some 146 := by
    show reduceRow (replaceRow rowSentinelSodium) "sodium" = some 146
    rw [reduceRow_sodium]
    unfold sodiumReduce
    rw [e1, e2]
    rfl
  rw [hcode, hspec]
  exact fun h => Option.noConfusion h

/-- C1, amended: the sentinel pass `replace(-1, NaN)` is a single whole-table
pass, but it runs strictly AFTER the abnormal-value reduction cell; on any
table whose reduction input columns are free of the `-1` sentinel, the
pipeline's values nonetheless coincide with those of the replace-first
ordering, column by column. -/
theorem sentinel_pass_commutes (r : Row)
    (h : ∀ c ∈ reductionInputs, r c ≠ some (-1)) :
    ∀ c, codeOrder r c = specOrder r c := by
  intro c
  by_cases h1 : c = "sodium"
  · subst h1
    have e1 : r "sodium_min" ≠ some (-1) := h _ (by decide)
    have e2 : r "sodium_max" ≠ some (-1) := h _ (by decide)
    show replaceSentinel (reduceRow r "sodium") = reduceRow (replaceRow r) "sodium"
    rw [reduceRow_sodium, reduceRow_sodium]
    have hr : sodiumReduce (replaceRow r) = sodiumReduce r := by
      unfold sodiumReduce
      rw [replaceRow_eq_of_ne r _ e1, replaceRow_eq_of_ne r _ e2]
    rw [hr]
    unfold sodiumReduce
    split
    · exact replaceSentinel_eq_of_ne e1
    · exact replaceSentinel_eq_of_ne e2
  by_cases h2 : c = "potassium"
  · subst h2
    have e1 : r "potassium_min" ≠ some (-1) := h _ (by decide)
    have e2 : r "potassium_max" ≠ some (-1) := h _ (by decide)
    show replaceSentinel (reduceRow r "potassium") = reduceRow (replaceRow r) "potassium"
    rw [reduceRow_potassium, reduceRow_potassium]
    have hr : potassiumReduce (replaceRow r) = potassiumReduce r := by
      unfold potassiumReduce
      rw [replaceRow_eq_of_ne r _ e1, replaceRow_eq_of_ne r _ e2]
    rw [hr]
    unfold potassiumReduce
    split
    · exact replaceSentinel_eq_of_ne e1
    · exact replaceSentinel_eq_of_ne e2
  by_cases h3 : c = "wbc"
  · subst h3
    have e1 : r "wbc_min" ≠ some (-1) := h _ (by decide)
    have e2 : r "wbc_max" ≠ some (-1) := h _ (by decide)
    show replaceSentinel (reduceRow r "wbc") = reduceRow (replaceRow r) "wbc"
    rw [reduceRow_wbc, reduceRow_wbc]
    have hr : wbcReduce (replaceRow r) = wbcReduce r := by
      unfold wbcReduce
      rw [replaceRow_eq_of_ne r _ e1, replaceRow_eq_of_ne r _ e2]
    rw [hr]
    unfold wbcReduce
    split
    · exact replaceSentinel_eq_of_ne e1
    · exact replaceSentinel_eq_of_ne e2
  by_cases h4 : c = "pmn"
  · subst h4
    have e1 : r "pmn_min" ≠ some (-1) := h _ (by decide)
    have e2 : r "pmn_max" ≠ some (-1) := h _ (by decide)
    show replaceSentinel (reduceRow r "pmn") = reduceRow (replaceRow r) "pmn"
    rw [reduceRow_pmn, reduceRow_pmn]
    have hr : pmnReduce (replaceRow r) = pmnReduce r := by
      unfold pmnReduce
      rw [replaceRow_eq_of_ne r _ e1, replaceRow_eq_of_ne r _ e2]
    rw [hr]
    unfold pmnReduce
    split
    · exact replaceSentinel_eq_of_ne e1
    · exact replaceSentinel_eq_of_ne e2
  by_cases h5 : c = "lym"
  · subst h5
    have e1 : r "lymphs_min" ≠ some (-1) := h _ (by decide)
    have e2 : r "lymphs_max" ≠ some (-1) := h _ (by decide)
    show replaceSentinel (reduceRow r "lym") = reduceRow (replaceRow r) "lym"
    rw [reduceRow_lym, reduceRow_lym]
    have hr : lymReduce (replaceRow r) = lymReduce r := by
      unfold lymReduce
      rw [replaceRow_eq_of_ne r _ e1, replaceRow_eq_of_ne r _ e2]
    rw [hr]
    unfold lymReduce
    split
    · exact replaceSentinel_eq_of_ne e1
    · exact replaceSentinel_eq_of_ne e2
  show replaceSentinel (reduceRow r c) = reduceRow (replaceRow r) c
  rw [reduceRow_other r c h1 h2 h3 h4 h5, reduceRow_other (replaceRow r) c h1 h2 h3 h4 h5]
  rfl

/-- C1, witness row: all cells missing, trivially sentinel-free. -/
def rowAllMissing : Row := fun _ => none

theorem sentinel_pass_commutes_witness :
    codeOrder rowAllMissing "sodium" = specOrder rowAllMissing "sodium" :=
  sentinel_pass_commutes rowAllMissing (by decide) "sodium"

/-- A concrete row with a missing minimum bound but a present maximum. -/
def rowMissingMin : Row := fun c => if c = "sodium_max" then some 150 else none

/-- C3, counterexample: a missing `sodium_min` with a present `sodium_max`
does NOT make the reduced sodium missing — the deviation check is false on
`NaN`, so the reducer falls back to the maximum observation. -/
theorem missing_propagation_counterexample :
    rowMissingMin "sodium_min" = none ∧ sodiumReduce rowMissingMin ≠ none := by
  refine ⟨by decide, ?_⟩
  have h1 : rowMissingMin "sodium_min" = none := by decide
  have h2 : rowMissingMin "sodium_max" = some 150 := by decide
  unfold sodiumReduce
  rw [h1, h2]
  decide

/-- C3, amended: when BOTH bounds of a reduced analyte are missing, the
reduced value is missing — no imputation, and the reduced value is in every
case one of the two input bounds, so missingness is never coerced to an
invented numeric value. A single missing bound, however, does not determine
the output: the check is false on a missing operand, so a missing minimum
with a present maximum yields the numeric maximum, while a false check with
a missing maximum yields the missing maximum. -/
theorem missing_both_bounds (r : Row) :
    ((r "sodium_min" = none → r "sodium_max" = none → sodiumReduce r = none) ∧
      (sodiumReduce r = r "sodium_min" ∨ sodiumReduce r = r "sodium_max")) ∧
    ((r "potassium_min" = none → r "potassium_max" = none → potassiumReduce r = none) ∧
      (potassiumReduce r = r "potassium_min" ∨ potassiumReduce r = r "potassium_max")) ∧
    ((r "wbc_min" = none → r "wbc_max" = none → wbcReduce r = none) ∧
      (wbcReduce r = r "wbc_min" ∨ wbcReduce r = r "wbc_max")) ∧
    ((r "pmn_min" = none → r "pmn_max" = none → pmnReduce r = none) ∧
      (pmnReduce r = r "pmn_min" ∨ pmnReduce r = r "pmn_max")) ∧
    ((r "lymphs_min" = none → r "lymphs_max" = none → lymReduce r = none) ∧
      (lymReduce r = r "lymphs_min" ∨ lymReduce r = r "lymphs_max")) := by
  refine ⟨⟨?_, ?_⟩, ⟨?_, ?_⟩, ⟨?_, ?_⟩, ⟨?_, ?_⟩, ⟨?_, ?_⟩⟩
  · intro h1 h2
    unfold sodiumReduce
    rw [h1, h2]
    rfl
  · unfold sodiumReduce
    split
    · exact Or.inl rfl
    · exact Or.inr rfl
  · intro h1 h2
    unfold potassiumReduce
    rw [h1, h2]
    rfl
  · unfold potassiumReduce
    split
    · exact Or.inl rfl
    · exact Or.inr rfl
  · intro h1 h2
    unfold wbcReduce
    rw [h1, h2]
    rfl
  · unfold wbcReduce
    split
    · exact Or.inl rfl
    · exact Or.inr rfl
  · intro h1 h2
    unfold pmnReduce
    rw [h1, h2]
    rfl
  · unfold pmnReduce
    split
    · exact Or.inl rfl
    · exact Or.inr rfl
  · intro h1 h2
    unfold lymReduce
    rw [h1, h2]
    rfl
  · unfold lymReduce
    split
    · exact Or.inl rfl
    · exact Or.inr rfl

theorem missing_both_bounds_witness :
    sodiumReduce rowAllMissing = none ∧ potassiumReduce rowAllMissing = none ∧
    wbcReduce rowAllMissing = none ∧ pmnReduce rowAllMissing = none ∧
    lymReduce rowAllMissing = none :=
  ⟨(missing_both_bounds rowAllMissing).1.1 rfl rfl,
   (missing_both_bounds rowAllMissing).2.1.1 rfl rfl,
   (missing_both_bounds rowAllMissing).2.2.1.1 rfl rfl,
   (missing_both_bounds rowAllMissing).2.2.2.1.1 rfl rfl,
   (missing_both_bounds rowAllMissing).2.2.2.2.1 rfl rfl⟩

/-- C4: for present bounds, the bidirectional-deviation reduction selects the
minimum observation exactly when its absolute deviation from the lower
reference bound is at least the maximum's absolute deviation from the upper
bound (ties to the minimum), with bounds 135/145 for sodium and 3.5/5.0 for
potassium. -/
theorem bidirectional_deviation_rule :
    (∀ (r : Row) (m M : ℚ), r "sodium_min" = some m → r "sodium_max" = some M →
      sodiumReduce r = if |m - 135| ≥ |M - 145| then some m else some M) ∧
    (∀ (r : Row) (m M : ℚ), r "potassium_min" = some m → r "potassium_max" = some M →
      potassiumReduce r = if |m - 3.5| ≥ |M - 5| then some m else some M) := by
  constructor
  · intro r m M h1 h2
    unfold sodiumReduce
    rw [h1, h2, devGE_some]
    by_cases h : |m - 135| ≥ |M - 145|
    · simp [h]
    · simp [h]
  · intro r m M h1 h2
    unfold potassiumReduce
    rw [h1, h2, devGE_some]
    by_cases h : |m - 3.5| ≥ |M - 5|
    · simp [h]
    · simp [h]

/-- Spec example row for sodium: m = 128, M = 150. -/
def rowSodiumExample : Row := fun c =>
  if c = "sodium_min" then some 128
  else if c = "sodium_max" then some 150
  else none

/-- Potassium example row: m = 3.6, M = 10. -/
def rowPotassiumExample : Row := fun c =>
  if c = "potassium_min" then some 3.6
  else if c = "potassium_max" then some 10
  else none

theorem bidirectional_deviation_rule_witness :
    sodiumReduce rowSodiumExample = some 128 ∧
    potassiumReduce rowPotassiumExample = some 10 := by
  constructor
  · have h := bidirectional_deviation_rule.1 rowSodiumExample 128 150 rfl rfl
    rw [h, if_pos]
    rw [abs_of_nonpos (show (128:ℚ) - 135 ≤ 0 by norm_num),
        abs_of_nonneg (show (0:ℚ) ≤ 150 - 145 by norm_num)]
    norm_num
  · have h := bidirectional_deviation_rule.2 rowPotassiumExample 3.6 10 rfl rfl
    rw [h, if_neg]
    rw [abs_of_nonneg (show (0:ℚ) ≤ 3.6 - 3.5 by norm_num),
        abs_of_nonneg (show (0:ℚ) ≤ 10 - 5 by norm_num)]
    norm_num

/-- C5: each threshold-selected count reduction yields the minimum observation
exactly when the raw minimum falls below its fixed clinical threshold (white
blood cells < 2, neutrophils < 45, lymphocytes < 20), and the maximum
observation otherwise; the comparison is against the raw minimum, not a
deviation from a range. -/
theorem threshold_selection_rule :
    (∀ (r : Row) (m : ℚ), r "wbc_min" = some m →
      wbcReduce r = if m < 2 then some m else r "wbc_max") ∧
    (∀ (r : Row) (m : ℚ), r "pmn_min" = some m →
      pmnReduce r = if m < 45 then some m else r "pmn_max") ∧
    (∀ (r : Row) (m : ℚ), r "lymphs_min" = some m →
      lymReduce r = if m < 20 then some m else r "lymphs_max") := by
  refine ⟨?_, ?_, ?_⟩
  · intro r m h1
    unfold wbcReduce
    rw [h1]
    by_cases h : m < 2
    · simp [cellLT, h]
    · simp [cellLT, h]
  · intro r m h1
    unfold pmnReduce
    rw [h1]
    by_cases h : m < 45
    · simp [cellLT, h]
    · simp [cellLT, h]
  · intro r m h1
    unfold lymReduce
    rw [h1]
    by_cases h : m < 20
    · simp [cellLT, h]
    · simp [cellLT, h]

/-- Spec example: wbc_min = 1.5, wbc_max = 14 (reduced: 1.5). -/
def rowWbcLow : Row := fun c =>
  if c = "wbc_min" then some 1.5
  else if c = "wbc_max" then some 14
  else none

/-- Spec example: wbc_min = 5, wbc_max = 14 (reduced: 14). -/
def rowWbcHigh : Row := fun c =>
  if c = "wbc_min" then some 5
  else if c = "wbc_max" then some 14
  else none

theorem threshold_selection_rule_witness :
    wbcReduce rowWbcLow = some 1.5 ∧ wbcReduce rowWbcHigh = some 14 := by
  constructor
  · have h := threshold_selection_rule.1 rowWbcLow 1.5 rfl
    rw [h, if_pos (by norm_num)]
  · have h := threshold_selection_rule.1 rowWbcHigh 5 rfl
    rw [h, if_neg (by norm_num)]
    rfl

/-- Column schema of the joined cohort table: the 34 columns selected by the
base cohort query followed by the 72 non-key columns of the feature-set query
(106 columns in all, as recorded by `cohort.shape`). -/
def initial_columns : List String :=
  ["patientunitstayid", "age", "gender", "ethnicity", "height", "weight",
   "unit_type", "unitadmitsource", "unit_los", "hospital_los",
   "gcs_meds", "gcs_verbal", "gcs_motor", "gcs_eyes", "admit_diagnosis",
   "hepatic_failure", "metastatic_cancer", "immunosuppression", "cirrhosis",
   "diabetes", "copd", "cad", "afib", "ckd", "apache_readmit", "apache_midur",
   "apache_ventday1", "apache_intubday1", "apache_fio2", "apache_pao2",
   "apache_o2ratio", "apache_prediction", "apache_score", "hospital_expiration",
   "hr_mean", "sbp_periodic_mean", "dbp_periodic_mean", "map_periodic_mean",
   "sbp_aperiodic_mean", "dbp_aperiodic_mean", "map_aperiodic_mean",
   "rr_mean", "spo2_mean", "tempc_mean",
   "albumin_min", "albumin_max", "amylase_min", "amylase_max",
   "bicarbonate_min", "bicarbonate_max", "bun_min", "bun_max",
   "cpk_min", "cpk_max", "bilirubin_min", "bilirubin_max",
   "ioncalcium_min", "ioncalcium_max", "creatinine_min", "creatinine_max",
   "glucose_min", "glucose_max", "hematocrit_min", "hematocrit_max",
   "fibrinogen_min", "fibrinogen_max", "lipase_min", "lipase_max",
   "hemoglobin_min", "hemoglobin_max", "lactate_min", "lactate_max",
   "lymphs_min", "lymphs_max", "platelet_min", "platelet_max",
   "pmn_min", "pmn_max", "potassium_min", "potassium_max",
   "ptt_min", "ptt_max", "inr_min", "inr_max", "pt_min", "pt_max",
   "sodium_min", "sodium_max", "tropi_min", "tropi_max", "wbc_min", "wbc_max",
   "alt_min", "alt_max", "ast_min", "ast_max", "alkphos_min", "alkphos_max",
   "abx", "vasopressor", "antiarr", "sedative", "diuretic",
   "blood_product_prbc", "blood_product_other", "antiinf"]

/-- Schema effect of `DataFrame.drop(ls, axis=1)`. -/
def dropCols (ls : List String) (cols : List String) : List String :=
  cols.filter (fun c => !ls.contains c)

/-- Schema effect of `DataFrame.assign` of a fresh column: appended at the end
unless the name is already present. -/
def assignCol (name : String) (cols : List String) : List String :=
  if cols.contains name then cols else cols ++ [name]

/-- The `lab_drop` list: for the unidirectional aberrations, the bound that is
not clinically relevant. -/
def lab_drop : List String :=
  ["bicarbonate_max", "platelet_max",
   "hemoglobin_max", "fibrinogen_max", "hematocrit_max", "albumin_max",
   "ioncalcium_max", "creatinine_min", "alt_min", "ast_min", "alkphos_min",
   "bun_min", "bilirubin_min", "pt_min", "ptt_min", "inr_min", "lactate_min",
   "tropi_min", "amylase_min", "lipase_min", "cpk_min"]

/-- Schema effect of the abnormal-value reduction cell: drop `lab_drop`, then
assign each reduced column and drop its min/max pair, in the order of the
source. -/
def reduceCellCols (cols : List String) : List String :=
  dropCols ["lymphs_min", "lymphs_max"]
    (assignCol "lym"
      (dropCols ["pmn_min", "pmn_max"]
        (assignCol "pmn"
          (dropCols ["wbc_min", "wbc_max"]
            (assignCol "wbc"
              (dropCols ["potassium_min", "potassium_max"]
                (assignCol "potassium"
                  (dropCols ["sodium_min", "sodium_max"]
                    (assignCol "sodium"
                      (dropCols lab_drop cols))))))))))

/-- Columns dropped right after the sentinel pass: redundant or unreliable
signals. -/
def redundant_drop : List String :=
  ["sbp_periodic_mean", "dbp_periodic_mean", "map_periodic_mean",
   "tempc_mean", "apache_pao2", "apache_fio2", "apache_o2ratio",
   "hospital_los", "unitadmitsource"]

/-- APACHE score and unit length-of-stay, dropped to avoid peeking into the
future. -/
def future_drop : List String := ["apache_score", "unit_los"]

/-- Relevance drop, category 1: not statistically significant with the
outcome. -/
def relevance_drop1 : List String :=
  ["height", "weight", "gender", "ethnicity", "unit_type",
   "diabetes", "copd", "cad", "ckd", "afib", "cirrhosis", "hepatic_failure",
   "sedative", "diuretic", "antiinf", "apache_midur", "sodium", "glucose_min"]

/-- Relevance drop, category 2: weakly correlated with the outcome. -/
def relevance_drop2 : List String := ["gcs_meds"]

/-- Relevance drop, category 3: strongly correlated with a retained feature. -/
def relevance_drop3 : List String :=
  ["sbp_aperiodic_mean", "dbp_aperiodic_mean", "apache_ventday1",
   "alt_max", "hematocrit_min", "lym"]

/-- Relevance drop, category 4: excessive missingness. -/
def relevance_drop4 : List String :=
  ["tropi_max", "fibrinogen_min", "ioncalcium_min", "cpk_max",
   "amylase_max", "lipase_max"]

/-- Indicator columns produced by `pd.get_dummies(cohort.admit_diagnosis,
'adx', drop_first=True)` on the filtered cohort, whose admission diagnoses
are the three non-surgical categories recorded in the notebook. -/
def adx_dummy_columns : List String := ["adx_UGIBLEED", "adx_UNKGIBLEED"]

/-- Schema effect of the feature-curation cells: sentinel pass (no schema
change), redundancy drop, future drop, the four relevance drops, the one-hot
concat followed by dropping the categorical source, and the GCS composite
followed by dropping its three sub-scores. -/
def curateCols (cols : List String) : List String :=
  dropCols ["gcs_eyes", "gcs_motor", "gcs_verbal"]
    (assignCol "gcs"
      (dropCols ["admit_diagnosis"]
        ((dropCols relevance_drop4
          (dropCols relevance_drop3
            (dropCols relevance_drop2
              (dropCols relevance_drop1
                (dropCols future_drop
                  (dropCols redundant_drop cols)))))) ++ adx_dummy_columns)))

/-- Schema effect of separating the outcome label and the benchmark
prediction from the feature matrix. -/
def splitDropCols (cols : List String) : List String :=
  dropCols ["hospital_expiration", "apache_prediction"] cols

/-- Column schema of the final train/test feature matrices. -/
def final_feature_cols : List String :=
  splitDropCols (curateCols (reduceCellCols initial_columns))

/-- C2: the stay identifier `patientunitstayid` is selected by the base cohort
query, appears in no drop list of the pipeline, and therefore survives into
the final train/test feature matrices — contradicting the contract that no
identifier-leaking column remains. -/
theorem identifier_survives_curation :
    "patientunitstayid" ∈ initial_columns ∧
    "patientunitstayid" ∈ final_feature_cols := by decide

/-- Analytes whose abnormality is unidirectional-low: only the minimum is
retained. -/
def unidirectional_min_analytes : List String :=
  ["bicarbonate", "platelet", "hemoglobin", "fibrinogen", "hematocrit",
   "albumin", "ioncalcium"]

/-- Analytes whose abnormality is unidirectional-high: only the maximum is
retained. -/
def unidirectional_max_analytes : List String :=
  ["creatinine", "alt", "ast", "alkphos", "bun", "bilirubin", "pt", "ptt",
   "inr", "lactate", "tropi", "amylase", "lipase", "cpk"]

/-- C6: for every unidirectional analyte the reducer's output schema retains
exactly the clinically relevant bound and no longer holds the other one, and
the reduction cell leaves the retained column's value untouched, so the
reduced feature is exactly the original retained extreme. -/
theorem unidirectional_reduction :
    (∀ a ∈ unidirectional_min_analytes,
      (a ++ "_min") ∈ reduceCellCols initial_columns ∧
      (a ++ "_max") ∉ reduceCellCols initial_columns) ∧
    (∀ a ∈ unidirectional_max_analytes,
      (a ++ "_max") ∈ reduceCellCols initial_columns ∧
      (a ++ "_min") ∉ reduceCellCols initial_columns) ∧
    (∀ (r : Row), ∀ a ∈ unidirectional_min_analytes,
      reduceRow r (a ++ "_min") = r (a ++ "_min")) ∧
    (∀ (r : Row), ∀ a ∈ unidirectional_max_analytes,
      reduceRow r (a ++ "_max") = r (a ++ "_max")) := by
  refine ⟨by decide, by decide, ?_, ?_⟩
  · intro r a ha
    fin_cases ha <;> rfl
  · intro r a ha
    fin_cases ha <;> rfl

theorem unidirectional_reduction_witness :
    ("bicarbonate" ++ "_min") ∈ reduceCellCols initial_columns ∧
    ("bicarbonate" ++ "_max") ∉ reduceCellCols initial_columns :=
  unidirectional_reduction.1 "bicarbonate" (by decide)

/-- A concrete row whose `glucose_max` holds the `-1` sentinel. -/
def rowGlucoseSentinel : Row := fun c =>
  if c = "glucose_max" then some (-1) else none

/-- C10, counterexample: `glucose_max` does not pass through every later stage
unchanged — the whole-table sentinel pass rewrites a `-1` in `glucose_max` to
missing. -/
theorem glucose_sentinel_counterexample :
    codeOrder rowGlucoseSentinel "glucose_max" ≠ rowGlucoseSentinel "glucose_max" := by
  decide

/-- C10, amended: glucose is never passed through any reduction rule (both its
columns survive the reduction cell with values untouched), `glucose_min` is
removed during relevance pruning, and `glucose_max` reaches the final
train/test schema; its values are unchanged by the pipeline except for the
whole-table sentinel pass, so any `glucose_max` cell other than `-1` arrives
unchanged. -/
theorem glucose_passthrough :
    (∀ r : Row, reduceRow r "glucose_min" = r "glucose_min" ∧
                reduceRow r "glucose_max" = r "glucose_max") ∧
    "glucose_min" ∈ reduceCellCols initial_columns ∧
    "glucose_max" ∈ reduceCellCols initial_columns ∧
    "glucose_min" ∉ final_feature_cols ∧
    "glucose_max" ∈ final_feature_cols ∧
    (∀ r : Row, r "glucose_max" ≠ some (-1) →
      codeOrder r "glucose_max" = r "glucose_max") := by
  refine ⟨fun r => ⟨rfl, rfl⟩, by decide, by decide, by decide, by decide, ?_⟩
  intro r h
  show replaceSentinel (reduceRow r "glucose_max") = r "glucose_max"
  rw [show reduceRow r "glucose_max" = r "glucose_max" from rfl]
  exact replaceSentinel_eq_of_ne h

theorem glucose_passthrough_witness :
    codeOrder rowAllMissing "glucose_max" = rowAllMissing "glucose_max" :=
  glucose_passthrough.2.2.2.2.2 rowAllMissing (by decide)

/-- The five admission-diagnosis categories recorded by the notebook
(`base_cohort['admit_diagnosis'].unique()`), in lexicographic order — the
order in which `pd.get_dummies` sorts its category levels. -/
def adxVocabulary : List String :=
  ["LOWGIBLEED", "S-LGIBLEED", "S-UGIBLEED", "UGIBLEED", "UNKGIBLEED"]

/-- The surgical-bleed exclusion set of the filter stage. -/
def surgicalBleeds : List String := ["S-UGIBLEED", "S-LGIBLEED"]

/-- The three categories that can still occur after the surgical-bleed
exclusion filter. -/
def postFilterDiagnoses : List String := ["LOWGIBLEED", "UGIBLEED", "UNKGIBLEED"]

/-- The sorted distinct categories present in an admission-diagnosis column
drawn from the known vocabulary: `pd.get_dummies` builds one level per
distinct value of the column, in sorted order. -/
def presentCats (values : List String) : List String :=
  adxVocabulary.filter (fun c => decide (c ∈ values))

/-- Category levels that receive an indicator column under `drop_first=True`:
all but the first (reference) level. -/
def dummyCats (values : List String) : List String := (presentCats values).drop 1

/-- Names of the produced indicator columns (`adx` name separator prepended,
as `pd.get_dummies(..., 'adx', ...)` does). -/
def dummyColNames (values : List String) : List String :=
  (dummyCats values).map (fun c => "adx_" ++ c)

/-- Indicator cell of a row with diagnosis `v` in the column of level `c`. -/
def dummyVal (v c : String) : ℚ := if v = c then 1 else 0

/-- Sum of all indicator cells of one row with diagnosis `v`. -/
def dummyRowSum (values : List String) (v : String) : ℚ :=
  ((dummyCats values).map (fun c => dummyVal v c)).sum

/-- C8, counterexample: an admission-diagnosis column as it reaches the
encoder (surgical-bleed subtypes already excluded) cannot exhibit 5
categories; on a column carrying all three surviving categories the encoding
produces 2 indicator columns, not 4. -/
theorem one_hot_counterexample :
    (∀ v ∈ postFilterDiagnoses, v ∉ surgicalBleeds) ∧
    (dummyColNames postFilterDiagnoses).length ≠ 4 := by decide

/-- C8, amended: after the surgical-bleed exclusion the encoder sees at most
the three surviving categories; with all three present it produces exactly 2
indicator columns (the lexicographically first level dropped as reference),
each row's indicators sum to 0 exactly on the reference category and to 1
otherwise, and the original categorical column is absent from the encoder
output and from the final schema. -/
theorem one_hot_encoding (values : List String)
    (hsub : ∀ v ∈ values, v ∈ postFilterDiagnoses)
    (h1 : "LOWGIBLEED" ∈ values) (h2 : "UGIBLEED" ∈ values)
    (h3 : "UNKGIBLEED" ∈ values) :
    (dummyColNames values).length = 2 ∧
    (∀ v ∈ values, dummyRowSum values v = if v = "LOWGIBLEED" then 0 else 1) ∧
    "admit_diagnosis" ∉ dummyColNames values ∧
    "admit_diagnosis" ∉ final_feature_cols := by
  have hS1 : ¬ ("S-LGIBLEED" ∈ values) := by
    intro hm
    have hh := hsub _ hm
    revert hh
    decide
  have hS2 : ¬ ("S-UGIBLEED" ∈ values) := by
    intro hm
    have hh := hsub _ hm
    revert hh
    decide
  have hcats : dummyCats values = ["UGIBLEED", "UNKGIBLEED"] := by
    unfold dummyCats presentCats adxVocabulary
    rw [List.filter_cons, List.filter_cons, List.filter_cons, List.filter_cons,
        List.filter_cons, List.filter_nil]
    rw [if_pos (by simpa using h1), if_neg (by simpa using hS1),
        if_neg (by simpa using hS2), if_pos (by simpa using h2),
        if_pos (by simpa using h3)]
    rfl
  refine ⟨?_, ?_, ?_, by decide⟩
  · unfold dummyColNames
    rw [hcats]
    rfl
  · intro v hv
    have hv3 := hsub v hv
    have : v = "LOWGIBLEED" ∨ v = "UGIBLEED" ∨ v = "UNKGIBLEED" := by
      simpa [postFilterDiagnoses] using hv3
    rcases this with rfl | rfl | rfl
    · simp [dummyRowSum, hcats, dummyVal]
    · simp [dummyRowSum, hcats, dummyVal]
    · simp [dummyRowSum, hcats, dummyVal]
  · unfold dummyColNames
    rw [hcats]
    decide

theorem one_hot_encoding_witness :
    (dummyColNames postFilterDiagnoses).length = 2 ∧
    (∀ v ∈ postFilterDiagnoses,
      dummyRowSum postFilterDiagnoses v = if v = "LOWGIBLEED" then 0 else 1) ∧
    "admit_diagnosis" ∉ dummyColNames postFilterDiagnoses ∧
    "admit_diagnosis" ∉ final_feature_cols :=
  one_hot_encoding postFilterDiagnoses (by decide) (by decide) (by decide) (by decide)

theorem map_eq_self_of_mem {α : Type} {f : α → α} :
    ∀ {l : List α}, (∀ a ∈ l, f a = a) → l.map f = l
  | [], _ => rfl
  | a :: l, h => by
    rw [List.map_cons, h a (List.mem_cons_self a l),
        map_eq_self_of_mem (fun b hb => h b (List.mem_cons_of_mem a hb))]

/-- The age cell of the raw cohort: a numeric value, the textual placeholder
for "older than 89", or the empty string. -/
inductive AgeVal where
  | emptyAge : AgeVal
  | over89 : AgeVal
  | num : ℚ → AgeVal
deriving DecidableEq

/-- The columns of one cohort row consulted by the inclusion/exclusion
filters; all other columns pass through the filter stage untouched. -/
structure PatRow where
  age : AgeVal
  unit_los : Cell
  admit_diagnosis : String
  weight : Cell
  height : Cell
deriving DecidableEq

/-- `cohort.loc[cohort.age == '> 89', 'age'] = 93.0`. -/
def normalizeAge (r : PatRow) : PatRow :=
  if r.age = AgeVal.over89 then { r with age := AgeVal.num 93 } else r

/-- `cohort.age != ''`. -/
def agePresent (r : PatRow) : Bool := decide (r.age ≠ AgeVal.emptyAge)

/-- `cohort.age >= 18.` after the cast to float (a non-numeric age would not
compare). -/
def ageAtLeast18 (r : PatRow) : Bool :=
  match r.age with
  | AgeVal.num q => decide (18 ≤ q)
  | _ => false

/-- `cohort.unit_los >= 240`. -/
def losOK (r : PatRow) : Bool := cellGE r.unit_los 240

/-- `~cohort.admit_diagnosis.isin(['S-UGIBLEED', 'S-LGIBLEED'])`. -/
def adxOK (r : PatRow) : Bool := !(decide (r.admit_diagnosis ∈ surgicalBleeds))

/-- `(cohort.weight >= 50) & (cohort.weight <= 300)`. -/
def weightOK (r : PatRow) : Bool := cellGE r.weight 50 && cellLE r.weight 300

/-- `(cohort.height <= 250) & (cohort.height >= 50)`. -/
def heightOK (r : PatRow) : Bool := cellLE r.height 250 && cellGE r.height 50

/-- The filter stage: age normalization and empty-age drop, the age, length
of stay, diagnosis, weight and height predicates, in source order (the
`astype('float64')` cast is the identity on this representation). -/
def filterStage (rows : List PatRow) : List PatRow :=
  ((((((rows.map normalizeAge).filter agePresent).filter ageAtLeast18).filter
      losOK).filter adxOK).filter weightOK).filter heightOK

theorem normalizeAge_of_num (r : PatRow) (h : ageAtLeast18 r = true) :
    normalizeAge r = r := by
  unfold normalizeAge
  unfold ageAtLeast18 at h
  match hq : r.age with
  | AgeVal.num q =>
      rw [if_neg (show ¬ (AgeVal.num q = AgeVal.over89) from fun hx => AgeVal.noConfusion hx)]
  | AgeVal.emptyAge => rw [hq] at h; exact absurd h (by decide)
  | AgeVal.over89 => rw [hq] at h; exact absurd h (by decide)

/-- C9: the filter stage is idempotent — applying the whole stage to its own
output removes no further row and changes no value. -/
theorem filter_stage_idempotent (rows : List PatRow) :
    filterStage (filterStage rows) = filterStage rows := by
  have hmem : ∀ r ∈ filterStage rows,
      heightOK r = true ∧ weightOK r = true ∧ adxOK r = true ∧ losOK r = true ∧
      ageAtLeast18 r = true ∧ agePresent r = true := by
    intro r hr
    unfold filterStage at hr
    have h7 := List.of_mem_filter hr
    have hr6 := List.mem_of_mem_filter hr
    have h6 := List.of_mem_filter hr6
    have hr5 := List.mem_of_mem_filter hr6
    have h5 := List.of_mem_filter hr5
    have hr4 := List.mem_of_mem_filter hr5
    have h4 := List.of_mem_filter hr4
    have hr3 := List.mem_of_mem_filter hr4
    have h3 := List.of_mem_filter hr3
    have hr2 := List.mem_of_mem_filter hr3
    have h2 := List.of_mem_filter hr2
    exact ⟨h7, h6, h5, h4, h3, h2⟩
  show ((((((((filterStage rows).map normalizeAge).filter agePresent).filter
      ageAtLeast18).filter losOK).filter adxOK).filter weightOK).filter heightOK)
      = filterStage rows
  rw [map_eq_self_of_mem (fun r hr => normalizeAge_of_num r (hmem r hr).2.2.2.2.1),
      List.filter_eq_self.2 (fun r hr => (hmem r hr).2.2.2.2.2),
      List.filter_eq_self.2 (fun r hr => (hmem r hr).2.2.2.2.1),
      List.filter_eq_self.2 (fun r hr => (hmem r hr).2.2.2.1),
      List.filter_eq_self.2 (fun r hr => (hmem r hr).2.2.1),
      List.filter_eq_self.2 (fun r hr => (hmem r hr).2.1),
      List.filter_eq_self.2 (fun r hr => (hmem r hr).1)]

/-- Modelled from the spec: the Split Writer's partition (sklearn
`train_test_split(cohort, label, apache_pred, test_size=0.20,
stratify=label, random_state=42)`) is external library code with no source
under src/; per the specification it deterministically partitions the rows
into a 20% test and 80% train subset per label class, stratified on the
binarized label. The model takes one fifth of each label class (rounded
down) as the test partition and the remainder as the train partition; the
pair is `(test, train)`. -/
def stratifiedSplit {α : Type} (lab : α → Bool) (rows : List α) : List α × List α :=
  let pos := rows.filter lab
  let neg := rows.filter (fun r => !lab r)
  (pos.take (pos.length / 5) ++ neg.take (neg.length / 5),
   pos.drop (pos.length / 5) ++ neg.drop (neg.length / 5))

theorem append_swap_perm {α : Type} (a b c d : List α) :
    ((a ++ b) ++ (c ++ d)).Perm ((a ++ c) ++ (b ++ d)) := by
  have h1 : (b ++ (c ++ d)).Perm (c ++ (b ++ d)) := by
    have hb : (b ++ (c ++ d)).Perm ((c ++ d) ++ b) := List.perm_append_comm
    have hc : ((c ++ d) ++ b).Perm (c ++ (d ++ b)) := by rw [List.append_assoc]
    have hd : (c ++ (d ++ b)).Perm (c ++ (b ++ d)) :=
      List.Perm.append_left c List.perm_append_comm
    exact (hb.trans hc).trans hd
  have h2 : ((a ++ b) ++ (c ++ d)).Perm (a ++ (b ++ (c ++ d))) := by
    rw [List.append_assoc]
  have h3 : (a ++ (b ++ (c ++ d))).Perm (a ++ (c ++ (b ++ d))) :=
    List.Perm.append_left a h1
  have h4 : (a ++ (c ++ (b ++ d))).Perm ((a ++ c) ++ (b ++ d)) := by
    rw [List.append_assoc]
  exact (h2.trans h3).trans h4

theorem split_union_perm {α : Type} (lab : α → Bool) (rows : List α) :
    ((stratifiedSplit lab rows).1 ++ (stratifiedSplit lab rows).2).Perm rows := by
  unfold stratifiedSplit
  have h1 := append_swap_perm
    ((rows.filter lab).take ((rows.filter lab).length / 5))
    ((rows.filter (fun r => !lab r)).take ((rows.filter (fun r => !lab r)).length / 5))
    ((rows.filter lab).drop ((rows.filter lab).length / 5))
    ((rows.filter (fun r => !lab r)).drop ((rows.filter (fun r => !lab r)).length / 5))
  rw [List.take_append_drop, List.take_append_drop] at h1
  exact h1.trans (List.filter_append_perm lab rows)

/-- C7: on distinct rows whose label classes have sizes divisible by five,
the stratified split's partitions are disjoint, their union is a
permutation of the input (row identity preserved), test holds exactly 20%
and train 80% of the rows, and each partition holds exactly its proportional
share of the positive label class (stratification). Determinism is inherent:
the split is a pure function of the seed-fixed model. -/
theorem stratified_split_spec {α : Type} (lab : α → Bool) (rows : List α)
    (hnd : rows.Nodup)
    (hp : 5 ∣ (rows.filter lab).length)
    (hn : 5 ∣ (rows.filter (fun r => !lab r)).length) :
    ((stratifiedSplit lab rows).1 ++ (stratifiedSplit lab rows).2).Perm rows ∧
    (stratifiedSplit lab rows).1.Disjoint (stratifiedSplit lab rows).2 ∧
    5 * (stratifiedSplit lab rows).1.length = rows.length ∧
    5 * (stratifiedSplit lab rows).2.length = 4 * rows.length ∧
    5 * ((stratifiedSplit lab rows).1.filter lab).length = (rows.filter lab).length ∧
    5 * ((stratifiedSplit lab rows).2.filter lab).length = 4 * (rows.filter lab).length := by
  have hperm := split_union_perm lab rows
  have hdisj : (stratifiedSplit lab rows).1.Disjoint (stratifiedSplit lab rows).2 := by
    have hnodup := (List.Perm.nodup_iff hperm).2 hnd
    exact (List.nodup_append.1 hnodup).2.2
  have hrowslen : rows.length
      = (rows.filter lab).length + (rows.filter (fun r => !lab r)).length := by
    have h := (List.filter_append_perm lab rows).length_eq
    rw [List.length_append] at h
    omega
  have htest : (stratifiedSplit lab rows).1
      = (rows.filter lab).take ((rows.filter lab).length / 5)
        ++ (rows.filter (fun r => !lab r)).take
            ((rows.filter (fun r => !lab r)).length / 5) := rfl
  have htrain : (stratifiedSplit lab rows).2
      = (rows.filter lab).drop ((rows.filter lab).length / 5)
        ++ (rows.filter (fun r => !lab r)).drop
            ((rows.filter (fun r => !lab r)).length / 5) := rfl
  have hposfilter : ∀ n : ℕ,
      ((rows.filter lab).take n).filter lab = (rows.filter lab).take n :=
    fun n => List.filter_eq_self.2
      (fun a ha => List.of_mem_filter (List.take_subset n (rows.filter lab) ha))
  have hposfilterd : ∀ n : ℕ,
      ((rows.filter lab).drop n).filter lab = (rows.filter lab).drop n :=
    fun n => List.filter_eq_self.2
      (fun a ha => List.of_mem_filter (List.drop_subset n (rows.filter lab) ha))
  have hnegfilter : ∀ n : ℕ,
      ((rows.filter (fun r => !lab r)).take n).filter lab = [] := by
    intro n
    refine List.filter_eq_nil_iff.2 (fun a ha => ?_)
    have hx := List.of_mem_filter (List.take_subset n (rows.filter (fun r => !lab r)) ha)
    simp at hx
    simp [hx]
  have hnegfilterd : ∀ n : ℕ,
      ((rows.filter (fun r => !lab r)).drop n).filter lab = [] := by
    intro n
    refine List.filter_eq_nil_iff.2 (fun a ha => ?_)
    have hx := List.of_mem_filter (List.drop_subset n (rows.filter (fun r => !lab r)) ha)
    simp at hx
    simp [hx]
  refine ⟨hperm, hdisj, ?_, ?_, ?_, ?_⟩
  · rw [htest, List.length_append, List.length_take, List.length_take]
    omega
  · rw [htrain, List.length_append, List.length_drop, List.length_drop]
    omega
  · rw [htest, List.filter_append, hposfilter, hnegfilter, List.append_nil,
        List.length_take]
    omega
  · rw [htrain, List.filter_append, hposfilterd, hnegfilterd, List.append_nil,
        List.length_drop]
    omega

/-- Ten concrete rows (stay id, binarized label): five expired, five not. -/
def rowsTen : List (ℕ × Bool) :=
  [(1, true), (2, true), (3, true), (4, true), (5, true),
   (6, false), (7, false), (8, false), (9, false), (10, false)]

theorem stratified_split_spec_witness :
    ((stratifiedSplit (fun r : ℕ × Bool => r.2) rowsTen).1
      ++ (stratifiedSplit (fun r : ℕ × Bool => r.2) rowsTen).2).Perm rowsTen ∧
    (stratifiedSplit (fun r : ℕ × Bool => r.2) rowsTen).1.Disjoint
      (stratifiedSplit (fun r : ℕ × Bool => r.2) rowsTen).2 ∧
    5 * (stratifiedSplit (fun r : ℕ × Bool => r.2) rowsTen).1.length = rowsTen.length ∧
    5 * (stratifiedSplit (fun r : ℕ × Bool => r.2) rowsTen).2.length = 4 * rowsTen.length ∧
    5 * ((stratifiedSplit (fun r : ℕ × Bool => r.2) rowsTen).1.filter
          (fun r : ℕ × Bool => r.2)).length
      = (rowsTen.filter (fun r : ℕ × Bool => r.2)).length ∧
    5 * ((stratifiedSplit (fun r : ℕ × Bool => r.2) rowsTen).2.filter
          (fun r : ℕ × Bool => r.2)).length
      = 4 * (rowsTen.filter (fun r : ℕ × Bool => r.2)).length :=
  stratified_split_spec (fun r : ℕ × Bool => r.2) rowsTen
    (by decide) (by decide) (by decide)
